import Mathlib

/-!
Verification development for the aiocasambi library (a Python client for the
Casambi cloud lighting API).  The Python modules under `src/aiocasambi/` are
shallowly embedded below: mutable objects become explicit state records,
Python dicts become insertion-ordered association lists, raised exceptions
become `Except` errors, and `await`ed network calls become oracle functions
passed in as arguments.  Each embedded definition carries a comment naming
the Python function it was translated from.
-/

set_option maxHeartbeats 1000000

/-- Python exceptions that the embedded code can raise.  `keyError` models a
`KeyError` on a dict access, `typeError` a `TypeError`, and
`aiocasambiException` the library base error from `errors.py` (the typed
subclasses that matter to the claims are listed separately). -/
inductive PyErr where
  | keyError
  | typeError
  | aiocasambiException
  deriving Repr, DecidableEq

/-- Typed vendor API errors raised by `Controller.request` (`errors.py`
maps HTTP status codes to these; only the distinctions the claims need are
kept). -/
inductive ApiErr where
  | unauthorized
  | requestedDataNotFound
  | serverError
  deriving Repr, DecidableEq

section AssocList

variable {κ : Type} [DecidableEq κ] {α : Type}

/-- Lookup in an insertion-ordered association list; models `d[k]` /
`d.get(k)` on a Python dict. -/
def lookupA : List (κ × α) → κ → Option α
  | [], _ => none
  | (k', v) :: rest, k => if k' = k then some v else lookupA rest k

/-- Key membership; models `k in d` on a Python dict. -/
def memA (m : List (κ × α)) (k : κ) : Bool :=
  (lookupA m k).isSome

/-- Insertion with Python dict semantics: replace in place when the key is
present (keeping its position), otherwise append at the end. -/
def insertA : List (κ × α) → κ → α → List (κ × α)
  | [], k, v => [(k, v)]
  | (k', v') :: rest, k, v =>
      if k' = k then (k', v) :: rest else (k', v') :: insertA rest k v

theorem lookupA_insertA_self (m : List (κ × α)) (k : κ) (v : α) :
    lookupA (insertA m k v) k = some v := by
  induction m with
  | nil => simp [insertA, lookupA]
  | cons p rest ih =>
      obtain ⟨k', v'⟩ := p
      by_cases h : k' = k
      · simp [insertA, lookupA, h]
      · simp [insertA, lookupA, h, ih]

theorem lookupA_insertA_ne (m : List (κ × α)) (k k' : κ) (v : α)
    (h : k ≠ k') : lookupA (insertA m k v) k' = lookupA m k' := by
  induction m with
  | nil => simp [insertA, lookupA, h]
  | cons p rest ih =>
      obtain ⟨k₀, v₀⟩ := p
      by_cases h₀ : k₀ = k
      · subst h₀
        simp [insertA, lookupA, h]
      · simp [insertA, lookupA, h₀, ih]

theorem insertA_insertA_same (m : List (κ × α)) (k : κ) (v w : α) :
    insertA (insertA m k v) k w = insertA m k w := by
  induction m with
  | nil => simp [insertA]
  | cons p rest ih =>
      obtain ⟨k₀, v₀⟩ := p
      by_cases h₀ : k₀ = k
      · simp [insertA, h₀]
      · simp [insertA, h₀, ih]

theorem insertA_self_of_lookup (m : List (κ × α)) (k : κ) (v : α)
    (h : lookupA m k = some v) : insertA m k v = m := by
  induction m with
  | nil => simp [lookupA] at h
  | cons p rest ih =>
      obtain ⟨k₀, v₀⟩ := p
      by_cases h₀ : k₀ = k
      · simp [lookupA, h₀] at h
        simp [insertA, h₀, h]
      · simp [lookupA, h₀] at h
        simp [insertA, h₀, ih h]

theorem memA_insertA (m : List (κ × α)) (k k' : κ) (v : α) :
    memA (insertA m k v) k' = (decide (k = k') || memA m k') := by
  by_cases h : k = k'
  · subst h
    simp [memA, lookupA_insertA_self]
  · simp [memA, lookupA_insertA_ne m k k' v h, h]

theorem memA_of_lookup (m : List (κ × α)) (k : κ) (v : α)
    (h : lookupA m k = some v) : memA m k = true := by
  simp [memA, h]

theorem insertA_comm_of_mem (m : List (κ × α)) (k k₂ : κ) (v v₂ : α)
    (hne : k ≠ k₂) (hmem : memA m k = true) :
    insertA (insertA m k v) k₂ v₂ = insertA (insertA m k₂ v₂) k v := by
  induction m with
  | nil => simp [memA, lookupA] at hmem
  | cons p rest ih =>
      obtain ⟨k₀, v₀⟩ := p
      by_cases h₀ : k₀ = k
      · subst h₀
        simp [insertA, hne, Ne.symm hne]
      · by_cases h₂ : k₀ = k₂
        · subst h₂
          simp [insertA, h₀, Ne.symm hne]
        · have hmem' : memA rest k = true := by
            simpa [memA, lookupA, h₀] using hmem
          simp [insertA, h₀, h₂, ih hmem']

/-- Fold a list of key-value pairs into a map, inserting left to right;
models a sequence of `d[k] = v` assignments on a Python dict. -/
def insFoldA (m : List (κ × α)) (ps : List (κ × α)) : List (κ × α) :=
  ps.foldl (fun acc p => insertA acc p.1 p.2) m

theorem insFoldA_nil (m : List (κ × α)) : insFoldA m [] = m := rfl

theorem insFoldA_cons (m : List (κ × α)) (p : (κ × α)) (ps : List (κ × α)) :
    insFoldA m (p :: ps) = insFoldA (insertA m p.1 p.2) ps := rfl

theorem memA_insFoldA_of (m : List (κ × α)) (ps : List (κ × α)) (k : κ)
    (h : memA m k = true) : memA (insFoldA m ps) k = true := by
  induction ps generalizing m with
  | nil => simpa [insFoldA] using h
  | cons p ps ih =>
      rw [insFoldA_cons]
      exact ih _ (by rw [memA_insertA]; simp [h])

theorem lookupA_insFoldA_not_mem (m : List (κ × α)) (ps : List (κ × α))
    (k : κ) (h : k ∉ ps.map Prod.fst) :
    lookupA (insFoldA m ps) k = lookupA m k := by
  induction ps generalizing m with
  | nil => simp [insFoldA]
  | cons p ps ih =>
      simp only [List.map_cons, List.mem_cons] at h
      push_neg at h
      rw [insFoldA_cons, ih _ h.2, lookupA_insertA_ne _ _ _ _ (Ne.symm h.1)]

theorem insFoldA_insertA_mem (ps : List (κ × α)) (m : List (κ × α))
    (k : κ) (w : α) (hk : k ∈ ps.map Prod.fst) (hmem : memA m k = true) :
    insFoldA (insertA m k w) ps = insFoldA m ps := by
  induction ps generalizing m with
  | nil => simp at hk
  | cons p ps ih =>
      obtain ⟨k₂, v₂⟩ := p
      by_cases h₂ : k₂ = k
      · subst h₂
        rw [insFoldA_cons, insFoldA_cons]
        simp only
        rw [insertA_insertA_same]
      · have hk' : k ∈ ps.map Prod.fst := by
          simpa [h₂, Ne.symm h₂] using hk
        rw [insFoldA_cons, insFoldA_cons]
        simp only
        rw [insertA_comm_of_mem m k k₂ w v₂ (fun h => h₂ h.symm) hmem]
        exact ih (insertA m k₂ v₂) hk'
          (by rw [memA_insertA]; simp [hmem])

theorem insFoldA_idem (ps : List (κ × α)) (m : List (κ × α)) :
    insFoldA (insFoldA m ps) ps = insFoldA m ps := by
  induction ps generalizing m with
  | nil => simp [insFoldA]
  | cons p ps ih =>
      obtain ⟨k, v⟩ := p
      rw [insFoldA_cons, insFoldA_cons]
      simp only
      by_cases hk : k ∈ ps.map Prod.fst
      · rw [insFoldA_insertA_mem ps _ k v hk
          (memA_insFoldA_of _ _ _ (by rw [memA_insertA]; simp))]
        exact ih (insertA m k v)
      · have : lookupA (insFoldA (insertA m k v) ps) k = some v := by
          rw [lookupA_insFoldA_not_mem _ _ _ hk, lookupA_insertA_self]
        rw [insertA_self_of_lookup _ _ _ this]
        exact ih (insertA m k v)

end AssocList

/-! ## Constants from `consts.py` -/

def STATE_DISCONNECTED : String := "disconnected"
def STATE_RUNNING : String := "running"
def STATE_STARTING : String := "starting"
def STATE_STOPPED : String := "stopped"
def MAX_NETWORK_IDS : Nat := 100
def MAX_RETRIES : Nat := 10

/-! ## Wire id allocation and frame routing (`controller.py`)

`Controller.start_websocket` allocates a wire id with

    wire_id = random.randint(1, MAX_NETWORK_IDS)
    while wire_id not in self._wire_id_to_network_id:
        wire_id = random.randint(1, MAX_NETWORK_IDS)
        self._wire_id_to_network_id[wire_id] = network_id

The loop body runs while the drawn id is NOT yet in the mapping, and the
body itself inserts the freshly drawn id, so the loop runs at most once:
if the first draw is already taken the loop never runs and that taken id
is used for the new `WSClient` without recording it; otherwise the second
draw is recorded (possibly overwriting another network entry) and used.
The random draws are passed in explicitly as `d1` and `d2`. -/

/-- Embedding of the wire-id allocation portion of
`Controller.start_websocket`: returns the wire id handed to the new
`WSClient` together with the updated `_wire_id_to_network_id` map. -/
def start_websocket_alloc (wireMap : List (Nat × String)) (network_id : String)
    (d1 d2 : Nat) : Nat × List (Nat × String) :=
  if memA wireMap d1 then
    -- `d1 not in map` is false: the while loop never runs, `d1` is used
    -- as wire id and the map is left unchanged.
    (d1, wireMap)
  else
    -- one iteration of the loop: redraw (`d2`), record it, loop exits.
    (d2, insertA wireMap d2 network_id)

/-- Embedding of the routing step of `Controller.session_handler` /
`Controller.message_handler`: an inbound frame tagged with a wire id is
attributed to `self._wire_id_to_network_id[wire_id]`. -/
def session_handler_route (wireMap : List (Nat × String)) (wire_id : Nat) :
    Option String :=
  lookupA wireMap wire_id

/-- C1: wire-id allocation is NOT collision-safe.  With network `netA`
already holding wire id 5, a `start_websocket` call for `netB` whose first
random draw is 5 finds `5 in self._wire_id_to_network_id` already true, so
the while loop never runs: the new connection for `netB` is created with
wire id 5, the reverse map still records 5 -> `netA`, and every frame the
`netB` connection receives is dispatched to the `netA` collection.  The
draws are within the legal 1..100 range, so this is a reachable state, and
it contradicts the specified local-uniqueness check (the loop condition is
inverted: the body regenerates precisely when the id is still free). -/
theorem C1_wire_id_cross_delivery :
    (start_websocket_alloc [(5, "netA")] "netB" 5 7).1 = 5 ∧
    (start_websocket_alloc [(5, "netA")] "netB" 5 7).2 = [(5, "netA")] ∧
    session_handler_route (start_websocket_alloc [(5, "netA")] "netB" 5 7).2
      (start_websocket_alloc [(5, "netA")] "netB" 5 7).1 = some "netA" ∧
    "netA" ≠ "netB" ∧ 1 ≤ 5 ∧ 5 ≤ MAX_NETWORK_IDS ∧ 1 ≤ 7 ∧
    7 ≤ MAX_NETWORK_IDS := by
  refine ⟨rfl, rfl, rfl, by decide, by decide, by decide, by decide, by decide⟩

/-! ## `Controller.get_network_information` and `Controller.__remove_network_id`

The controller state kept here is the part the claim talks about: the set
of network ids and the per-network session-id map.  The per-network HTTP
responses are supplied by an oracle `resp`.  Two details of the Python
code decide the claim:

  * `__remove_network_id` is an `async def`, but `get_network_information`
    calls it WITHOUT `await` (line 330), which in CPython merely creates a
    coroutine object that is never run — so none of the removal code
    executes.  The embedding therefore leaves the state unchanged on that
    path.
  * even if it were awaited, `self._network_ids` is a `set` and
    `self._network_ids.pop(network_id)` raises `TypeError` because
    `set.pop` takes no argument.
-/

structure CtrlState where
  network_ids : List String
  session_ids : List (String × String)
  deriving Repr, DecidableEq

/-- Embedding of `Controller.get_network_information`.  Iterates over the
known network ids, looks up each session id (`KeyError` when absent, as in
Python), queries the oracle, collects successful responses, remembers
unauthorized networks in `failed_network_ids`, raises the library error
when no network id is known or when every request failed, and finally
issues the (never-awaited, hence effect-free) `__remove_network_id` calls. -/
def get_network_information (st : CtrlState)
    (resp : String → Except ApiErr String) :
    Except PyErr (List (String × String) × CtrlState) := do
  if st.network_ids = [] then
    throw .aiocasambiException
  else
    let mut result : List (String × String) := []
    let mut failed : List String := []
    for network_id in st.network_ids do
      match lookupA st.session_ids network_id with
      | none => throw .keyError
      | some _ =>
        match resp network_id with
        | .ok data => result := result ++ [(network_id, data)]
        | .error .unauthorized => failed := failed ++ [network_id]
        | .error _ => throw .aiocasambiException
    if result = [] then
      throw .aiocasambiException
    -- for failed_network_id in failed_network_ids:
    --     self.__remove_network_id(network_id=failed_network_id)
    -- The coroutine is created but never awaited: no state change.
    return (result, st)

/-- C3: a partial unauthorized failure does NOT remove the failed network.
With networks `A` and `B` where `A` rejects credentials and `B` succeeds,
`get_network_information` returns only the data of `B` — but the
controller state still contains `A` in `_network_ids` and `_session_ids`,
because the removal routine `__remove_network_id` is an async function
invoked without `await` (the coroutine is never run).  The claim requires
exactly the failed ids to be removed. -/
theorem C3_failed_network_not_removed :
    get_network_information
        ⟨["A", "B"], [("A", "sa"), ("B", "sb")]⟩
        (fun n => if n = "A" then .error .unauthorized else .ok "data") =
      .ok ([("B", "data")], ⟨["A", "B"], [("A", "sa"), ("B", "sb")]⟩) ∧
    ("A" ∈ (CtrlState.mk ["A", "B"] [("A", "sa"), ("B", "sb")]).network_ids) ∧
    lookupA (CtrlState.mk ["A", "B"] [("A", "sa"), ("B", "sb")]).session_ids
      "A" = some "sa" := by
  refine ⟨by rfl, by decide, rfl⟩

/-! ## `Controller.reconnect` (`controller.py` lines 1141-1196)

`reconnect` is guarded by `self._reconnecting`: when the flag is already
set the function returns immediately.  Otherwise it sets the flag and
loops calling `create_session`, catching exactly three exception kinds
(`QoutaLimitsExceeded`, `aiohttp ClientConnectorError`,
`asyncio.TimeoutError`) and sleeping before retrying; on success it clears
the flag and breaks.  Any other exception — e.g. the fatal
`AiocasambiException` that `create_session` raises once its own
`MAX_RETRIES` ceiling is exhausted, or an `Unauthorized` error — is not
caught, so it propagates out of `reconnect` with `self._reconnecting`
still `True`.  Each outcome of one `create_session` call is one element
of the `attempts` list. -/

inductive SessionAttempt where
  | ok
  | quotaLimits
  | clientConnector
  | timeout
  | fatal
  deriving Repr, DecidableEq

/-- An attempt outcome is retryable when `reconnect` has an `except`
clause for it. -/
def SessionAttempt.retryable : SessionAttempt → Bool
  | .quotaLimits => true
  | .clientConnector => true
  | .timeout => true
  | _ => false

/-- Result of a `reconnect` call: how many `create_session` attempts were
made, whether an uncaught exception propagated out, and the final value of
`self._reconnecting`.  `none` means the supplied attempt list ran out
while the retry loop was still running (the Python loop is unbounded). -/
structure ReconnectResult where
  attemptsMade : Nat
  raised : Bool
  reconnecting : Bool
  deriving Repr, DecidableEq

/-- The `while True` retry loop inside `Controller.reconnect`, entered
with `self._reconnecting = True`. -/
def reconnect_loop : List SessionAttempt → Option ReconnectResult
  | [] => none
  | a :: rest =>
    match a with
    | .ok => some ⟨1, false, false⟩          -- self._reconnecting = False; break
    | .quotaLimits | .clientConnector | .timeout =>
        -- caught, sleep(self.network_timeout), continue
        (reconnect_loop rest).map
          (fun r => ⟨r.attemptsMade + 1, r.raised, r.reconnecting⟩)
    | .fatal => some ⟨1, true, true⟩          -- uncaught: propagates, flag stays True

/-- Embedding of `Controller.reconnect`: the reentrancy guard followed by
the retry loop. -/
def reconnect (reconnecting : Bool) (attempts : List SessionAttempt) :
    Option ReconnectResult :=
  if reconnecting then
    some ⟨0, false, true⟩                     -- `if self._reconnecting: return`
  else
    reconnect_loop attempts

/-- C10: a non-retried exception from session establishment (for example
the fatal no-session error raised after the bounded retry ceiling) leaves
the reentrancy guard set.  For every run whose retried failures `pre` are
followed by a fatal outcome, `reconnect` propagates the exception with
`_reconnecting` still `True`; and every call made while the flag is set —
which is how the ping, send and health-check paths re-enter `reconnect` —
returns immediately, making zero `create_session` attempts. -/
theorem C10_fatal_leaves_guard_set (pre rest later : List SessionAttempt)
    (hpre : ∀ a ∈ pre, a.retryable = true) :
    reconnect false (pre ++ .fatal :: rest) =
      some ⟨pre.length + 1, true, true⟩ ∧
    reconnect true later = some ⟨0, false, true⟩ := by
  constructor
  · show reconnect_loop (pre ++ .fatal :: rest) = _
    induction pre with
    | nil => rfl
    | cons a pre ih =>
        have ha := hpre a (List.mem_cons_self a pre)
        have ih' := ih (fun b hb => hpre b (List.mem_cons_of_mem a hb))
        cases a <;> simp_all [reconnect_loop, SessionAttempt.retryable,
          Nat.add_comm, Nat.add_left_comm]
  · rfl

/-- C10 witness: one quota-limit failure, then the fatal error; a later
call with the guard set returns immediately. -/
theorem C10_fatal_leaves_guard_set_witness :
    reconnect false [.quotaLimits, .fatal] = some ⟨2, true, true⟩ ∧
    reconnect true [.ok] = some ⟨0, false, true⟩ :=
  C10_fatal_leaves_guard_set [.quotaLimits] [] [.ok] (by decide)

/-! ## Python numeric helpers

The embedded arithmetic follows CPython semantics on exact rationals:
`int(x)` truncates toward zero, `round(x)` rounds half to even, and
`x % n` returns `x - n*floor(x/n)` for a positive divisor `n`. -/

/-- CPython `int(x)`: truncation toward zero. -/
def pyTrunc (q : ℚ) : ℤ :=
  if q < 0 then ⌈q⌉ else ⌊q⌋

/-- CPython `round(x)`: round half to even. -/
def pyRound (q : ℚ) : ℤ :=
  let f := ⌊q⌋
  let r := q - (f : ℚ)
  if r < 1 / 2 then f
  else if 1 / 2 < r then f + 1
  else if Even f then f else f + 1

/-- CPython `x % n` (sign follows the divisor; here only used with the
positive divisor 50). -/
def pyMod (q n : ℚ) : ℚ :=
  q - n * (⌊q / n⌋ : ℚ)

/-! ## `unit.py` — the final revision of the `Unit` device model

This is the `Unit` class of `unit.py` (the most complete revision in the
repository; `units.py` embeds an older superseded revision which is
modelled separately further below for the collection claims). -/

def UNIT_STATE_OFF : String := "off"
def UNIT_STATE_ON : String := "on"

/-- One control dict as stored in a `controls` mapping or sent in
`targetControls`.  Field `ctype` is the `type` key (`type` is not usable
as a Lean field name); absent keys are `none`. -/
structure Control where
  ctype : Option String := none
  value : Option ℚ := none
  source : Option String := none
  cmin : Option ℚ := none
  cmax : Option ℚ := none
  deriving Repr, DecidableEq

/-- The `{wire, method, id, targetControls}` envelope every mutating
command method of `Unit` builds and hands to
`controller.ws_send_message`. -/
structure ControlUnitMessage where
  wire : Int
  method : String
  id : Int
  targetControls : List (String × Control)
  deriving Repr, DecidableEq

namespace UnitPy

/-- State of a `unit.py` `Unit` object (the attributes the claims touch;
the back-reference to the controller object is modelled by passing the
relevant controller data into the functions that read it). -/
structure Unit where
  name : String
  address : String
  unit_id : Int
  network_id : String
  wire_id : Int
  value : ℚ
  distribution : ℚ
  state : String
  online : Bool
  enabled : Bool
  fixture_model : Option String := none
  fixture : Option ℚ := none
  oem : Option String := none
  firmware_version : Option String := none
  controls : List (String × Control) := []
  deriving Repr, DecidableEq

/-- Embedding of the `unit.py` `Unit.value` setter: validates the dimmer
level, drives the on/off state, and raises `AiocasambiException` (leaving
the object untouched — the raise happens before any assignment) when the
value is out of range. -/
def value_setter (u : Unit) (v : ℚ) : Unit × Option PyErr :=
  if v = 0 then
    ({ u with state := UNIT_STATE_OFF, value := v }, none)
  else if 0 < v ∧ v ≤ 1 then
    ({ u with state := UNIT_STATE_ON, value := v }, none)
  else
    (u, some .aiocasambiException)

/-- Embedding of `unit.py` `Unit.set_unit_value`: validates the range
first (raising before any mutation), then builds the `controlUnit`
envelope, applies the value setter, and sends the message. -/
def set_unit_value (u : Unit) (v : ℚ) :
    Unit × Except PyErr ControlUnitMessage :=
  if ¬(0 ≤ v ∧ v ≤ 1) then
    (u, .error .aiocasambiException)
  else
    let msg : ControlUnitMessage :=
      { wire := u.wire_id, method := "controlUnit", id := u.unit_id,
        targetControls := [("Dimmer", { value := some v })] }
    let su := value_setter u v
    (su.1, match su.2 with
           | some e => .error e
           | none => .ok msg)

/-- Result of `unit.py` `Unit.get_supported_color_temperature`.  When
`self._controls` is empty the Python code returns the tuple
`(min, max, current)` built from the BUILTIN functions `min` and `max`
(the local variables are named `cct_min`/`cct_max`), which poisons any
later arithmetic comparison; that branch is kept distinct here. -/
inductive CctSupport where
  | builtinsLeak
  | range (cct_min cct_max current : ℚ)
  deriving Repr, DecidableEq

/-- Embedding of `unit.py` `Unit.get_supported_color_temperature`. -/
def get_supported_color_temperature (u : Unit) : Except PyErr CctSupport :=
  if u.controls = [] then
    .ok .builtinsLeak
  else
    match lookupA u.controls "CCT" with
    | some c => do
        -- the CCT dict is nonempty whenever present, so the truthiness
        -- test `self._controls["CCT"]` passes
        let mn ← match c.cmin with | some x => pure x | none => throw PyErr.keyError
        let mx ← match c.cmax with | some x => pure x | none => throw PyErr.keyError
        let cur ← match c.value with | some x => pure x | none => throw PyErr.keyError
        pure (.range mn mx cur)
    | none => pure (.range 0 0 0)

/-- Embedding of `unit.py` `Unit.set_unit_color_temperature`: optional
mired-to-Kelvin conversion via `round(1000000 / value)`, then the
snap-to-50 step `int(target_value / 50) * 50 + 50` applied when
`target_value % 50 != 0`, then clamping against the advertised range,
then the `controlUnit` envelope.  Comparing against the builtins leaked
by the empty-controls branch raises `TypeError` in Python 3. -/
def set_unit_color_temperature (u : Unit) (value : ℚ) (source : String) :
    Except PyErr ControlUnitMessage := do
  let target0 : ℚ := if source = "mired" then (pyRound (1000000 / value) : ℚ)
                     else value
  let target1 : ℚ := if pyMod target0 50 ≠ 0 then
                       ((pyTrunc (target0 / 50) : ℚ) * 50 + 50)
                     else target0
  let sup ← get_supported_color_temperature u
  match sup with
  | .builtinsLeak => throw PyErr.typeError
  | .range cct_min cct_max _ =>
      let target2 : ℚ := if target1 < cct_min then cct_min
                         else if target1 > cct_max then cct_max
                         else target1
      pure { wire := u.wire_id, method := "controlUnit", id := u.unit_id,
             targetControls :=
               [("ColorTemperature", { value := some target2 }),
                ("Colorsource", { source := some "TW" })] }

/-- Embedding of the `unit.py` `Unit.online` property getter: consults
the owning network websocket state through the controller
(`controller.get_websocket_state(network_id)` is passed in as
`websocket_state`) and reports `False` whenever that state is not
`running`, falling back to the stored device-level flag otherwise. -/
def online_getter (websocket_state : String) (u : Unit) : Bool :=
  if websocket_state ≠ STATE_RUNNING then false else u.online

end UnitPy

/-- Color-temperature value actually placed in the outbound frame, read
back out of the `targetControls` envelope. -/
def sentColorTemperature (msg : ControlUnitMessage) : Option ℚ :=
  (lookupA msg.targetControls "ColorTemperature").bind Control.value

/-- Spec-side definition, following the claim words: rounding a target to
the NEAREST multiple of 50 K. -/
def spec_round_nearest_50 (t : ℚ) : ℚ :=
  50 * (round (t / 50) : ℤ)

/-- Spec-side definition, following the claim words: clamp to the
advertised range. -/
def spec_clamp (x lo hi : ℚ) : ℚ :=
  min (max x lo) hi

/-- Amended-spec rounding: round UP to the next multiple of 50 K when the
target is not already a multiple (stated for nonnegative targets, which
is how the code behaves there). -/
def amended_round_up_50 (t : ℚ) : ℚ :=
  if pyMod t 50 = 0 then t else 50 * ((⌊t / 50⌋ : ℚ) + 1)

/-- Example unit with an advertised CCT range of [2200, 6000] K. -/
def exampleCctControl : Control :=
  { ctype := some "CCT", value := some 4000, cmin := some 2200,
    cmax := some 6000 }

/-- Example unit carrying `exampleCctControl`. -/
def exampleCctUnit : UnitPy.Unit :=
  { name := "Arbetslampa", address := "26925689c64c", unit_id := 13,
    network_id := "net1", wire_id := 3, value := 0, distribution := 0,
    state := UNIT_STATE_OFF, online := true, enabled := true,
    controls := [("CCT", exampleCctControl)] }

/-- C2 counterexample: the code does not round to the NEAREST multiple of
50 K.  For target 2210 K on a unit advertising [2200, 6000], the value put
in the outbound frame is `int(2210/50)*50 + 50 = 2250`, while the nearest
multiple of 50 is 2200; the claimed `clamp(round_to_nearest_50(t), lo, hi)`
would transmit 2200. -/
theorem C2_counterexample :
    (UnitPy.set_unit_color_temperature exampleCctUnit 2210 "TW").map
        sentColorTemperature = .ok (some 2250) ∧
    spec_clamp (spec_round_nearest_50 2210) 2200 6000 = 2200 ∧
    (2250 : ℚ) ≠ 2200 := by
  refine ⟨?_, ?_, by norm_num⟩
  · norm_num [UnitPy.set_unit_color_temperature,
      UnitPy.get_supported_color_temperature, exampleCctUnit,
      exampleCctControl, lookupA, pyMod, pyTrunc, sentColorTemperature,
      Except.map, pure, Except.pure, bind, Except.bind,
      show ("TW" : String) ≠ "mired" from by decide]
  · rw [spec_round_nearest_50, round_eq]
    norm_num [spec_clamp]

theorem pyTrunc_eq_floor_of_nonneg (q : ℚ) (h : 0 ≤ q) : pyTrunc q = ⌊q⌋ := by
  rw [pyTrunc, if_neg (not_lt.mpr h)]

theorem pyRound_nonneg (q : ℚ) (h : 0 ≤ q) : 0 ≤ pyRound q := by
  have hf : 0 ≤ ⌊q⌋ := Int.floor_nonneg.mpr h
  rw [pyRound]
  split_ifs <;> omega

theorem clamp_if_eq (x lo hi : ℚ) (h : lo ≤ hi) :
    (if x < lo then lo else if x > hi then hi else x) = spec_clamp x lo hi := by
  rw [spec_clamp]
  rcases lt_or_le x lo with h1 | h1
  · rw [if_pos h1, max_eq_right h1.le, min_eq_left h]
  · rw [if_neg (not_lt.mpr h1), max_eq_left h1]
    rcases lt_or_le hi x with h2 | h2
    · rw [if_pos h2, min_eq_right h2.le]
    · rw [if_neg (not_lt.mpr h2), min_eq_left h2]

theorem snap50_eq_amended (x : ℚ) (h : 0 ≤ x) :
    (if pyMod x 50 ≠ 0 then ((pyTrunc (x / 50) : ℚ) * 50 + 50) else x) =
      amended_round_up_50 x := by
  rw [amended_round_up_50]
  by_cases hm : pyMod x 50 = 0
  · simp [hm]
  · have hq : (0 : ℚ) ≤ x / 50 := by positivity
    rw [if_pos hm, if_neg hm, pyTrunc_eq_floor_of_nonneg _ hq]
    ring

/-- C2 amended: the value placed in the outbound `controlUnit` frame is
`clamp(round_up_to_next_50(t), lo, hi)` — rounding UP to the next multiple
of 50 K (not to the nearest) whenever the target is not already a
multiple of 50 — with the mired source converted to Kelvin by
`round(1000000 / t)` first and the clamping applied after the rounding,
for every positive target `t` and every unit advertising a CCT range
`[lo, hi]`. -/
theorem C2_amended_round_up_then_clamp (u : UnitPy.Unit) (c : Control)
    (t lo hi cur : ℚ)
    (hc : lookupA u.controls "CCT" = some c)
    (hmin : c.cmin = some lo) (hmax : c.cmax = some hi)
    (hval : c.value = some cur) (hne : u.controls ≠ [])
    (hlohi : lo ≤ hi) (ht : 0 < t) :
    (UnitPy.set_unit_color_temperature u t "TW").map sentColorTemperature =
      .ok (some (spec_clamp (amended_round_up_50 t) lo hi)) ∧
    (UnitPy.set_unit_color_temperature u t "mired").map sentColorTemperature
      = .ok (some (spec_clamp (amended_round_up_50
          ((pyRound (1000000 / t) : ℤ) : ℚ)) lo hi)) := by
  have hsup : UnitPy.get_supported_color_temperature u =
      .ok (.range lo hi cur) := by
    rw [UnitPy.get_supported_color_temperature, if_neg hne, hc]
    simp [hmin, hmax, hval, bind, Except.bind, pure, Except.pure]
  have hcl : ∀ x : ℚ,
      (if x < lo then lo else if x > hi then hi else x) =
        spec_clamp x lo hi := fun x => clamp_if_eq x lo hi hlohi
  have hv1 : (if pyMod t 50 ≠ 0 then ((pyTrunc (t / 50) : ℚ) * 50 + 50)
      else t) = amended_round_up_50 t := snap50_eq_amended t ht.le
  have hr : (0 : ℚ) ≤ ((pyRound (1000000 / t) : ℤ) : ℚ) := by
    exact_mod_cast pyRound_nonneg _ (by positivity)
  have hv2 : (if pyMod ((pyRound (1000000 / t) : ℤ) : ℚ) 50 ≠ 0 then
      ((pyTrunc (((pyRound (1000000 / t) : ℤ) : ℚ) / 50) : ℚ) * 50 + 50)
      else ((pyRound (1000000 / t) : ℤ) : ℚ)) =
        amended_round_up_50 ((pyRound (1000000 / t) : ℤ) : ℚ) :=
    snap50_eq_amended _ hr
  constructor
  · rw [UnitPy.set_unit_color_temperature]
    simp [hsup, bind, Except.bind, pure, Except.pure, Except.map,
      sentColorTemperature, lookupA, Option.bind, hcl, hv1]
  · rw [UnitPy.set_unit_color_temperature]
    simp [hsup, bind, Except.bind, pure, Except.pure, Except.map,
      sentColorTemperature, lookupA, Option.bind, hcl, hv2]

/-- C2 witness: the amended statement at target 2210 K on the unit
advertising [2200, 6000]. -/
theorem C2_amended_round_up_then_clamp_witness :
    (UnitPy.set_unit_color_temperature exampleCctUnit 2210 "TW").map
        sentColorTemperature =
      .ok (some (spec_clamp (amended_round_up_50 2210) 2200 6000)) ∧
    (UnitPy.set_unit_color_temperature exampleCctUnit 2210 "mired").map
        sentColorTemperature =
      .ok (some (spec_clamp (amended_round_up_50
          ((pyRound (1000000 / 2210) : ℤ) : ℚ)) 2200 6000)) :=
  C2_amended_round_up_then_clamp exampleCctUnit exampleCctControl
    2210 2200 6000 4000
    (by simp [exampleCctUnit, lookupA]) rfl rfl rfl
    (by simp [exampleCctUnit]) (by norm_num) (by norm_num)

/-- C5: for every dimmer value inside [0, 1] the assignment succeeds and
drives the on/off state (`on` iff the value is positive), both through
the bare `value` property setter and through `set_unit_value`; for every
value outside [0, 1] both paths raise `AiocasambiException` and return
the unit exactly as it was (the raise happens before any mutation). -/
theorem C5_dimmer_value_validation (u : UnitPy.Unit) (v w : ℚ)
    (hv : 0 ≤ v ∧ v ≤ 1) (hw : ¬(0 ≤ w ∧ w ≤ 1)) :
    (UnitPy.value_setter u v).2 = none ∧
    ((UnitPy.value_setter u v).1.state = UNIT_STATE_ON ↔ 0 < v) ∧
    (UnitPy.value_setter u v).1.value = v ∧
    UnitPy.value_setter u w = (u, some PyErr.aiocasambiException) ∧
    (UnitPy.set_unit_value u v).1 = (UnitPy.value_setter u v).1 ∧
    (UnitPy.set_unit_value u v).2 =
      .ok { wire := u.wire_id, method := "controlUnit", id := u.unit_id,
            targetControls := [("Dimmer", { value := some v })] } ∧
    UnitPy.set_unit_value u w = (u, .error PyErr.aiocasambiException) := by
  obtain ⟨hv0, hv1⟩ := hv
  have hwin : ¬(0 ≤ w ∧ w ≤ 1) := hw
  by_cases hz : v = 0
  · subst hz
    refine ⟨rfl, ?_, rfl, ?_, ?_, ?_, ?_⟩
    · simp [UnitPy.value_setter, UNIT_STATE_ON, UNIT_STATE_OFF]
    · rw [UnitPy.value_setter]
      have h0 : ¬(w = 0) := by
        intro h; exact hw (by simp [h])
      have h1 : ¬(0 < w ∧ w ≤ 1) := by
        intro h; exact hw ⟨h.1.le, h.2⟩
      simp [h0, h1]
    · simp [UnitPy.set_unit_value]
    · simp [UnitPy.set_unit_value, UnitPy.value_setter]
    · rw [UnitPy.set_unit_value, if_pos hwin]
  · have hpos : 0 < v := lt_of_le_of_ne hv0 (Ne.symm hz)
    refine ⟨?_, ?_, ?_, ?_, ?_, ?_, ?_⟩
    · simp [UnitPy.value_setter, hz, hpos, hv1]
    · simp [UnitPy.value_setter, hz, hpos, hv1, UNIT_STATE_ON]
    · simp [UnitPy.value_setter, hz, hpos, hv1]
    · rw [UnitPy.value_setter]
      have h0 : ¬(w = 0) := by
        intro h; exact hw (by simp [h])
      have h1 : ¬(0 < w ∧ w ≤ 1) := by
        intro h; exact hw ⟨h.1.le, h.2⟩
      simp [h0, h1]
    · simp [UnitPy.set_unit_value, hv0, hv1]
    · simp [UnitPy.set_unit_value, hv0, hv1, UnitPy.value_setter, hz,
        hpos]
    · rw [UnitPy.set_unit_value, if_pos hwin]

/-- C5 witness: value 3/4 succeeds and turns the unit on; value 2 raises
and leaves the example unit untouched. -/
theorem C5_dimmer_value_validation_witness :
    (UnitPy.value_setter exampleCctUnit (3/4)).2 = none ∧
    ((UnitPy.value_setter exampleCctUnit (3/4)).1.state = UNIT_STATE_ON ↔
      (0 : ℚ) < 3/4) ∧
    (UnitPy.value_setter exampleCctUnit (3/4)).1.value = 3/4 ∧
    UnitPy.value_setter exampleCctUnit 2 =
      (exampleCctUnit, some PyErr.aiocasambiException) ∧
    (UnitPy.set_unit_value exampleCctUnit (3/4)).1 =
      (UnitPy.value_setter exampleCctUnit (3/4)).1 ∧
    (UnitPy.set_unit_value exampleCctUnit (3/4)).2 =
      .ok { wire := exampleCctUnit.wire_id, method := "controlUnit",
            id := exampleCctUnit.unit_id,
            targetControls := [("Dimmer", { value := some (3/4) })] } ∧
    UnitPy.set_unit_value exampleCctUnit 2 =
      (exampleCctUnit, .error PyErr.aiocasambiException) :=
  C5_dimmer_value_validation exampleCctUnit (3/4) 2
    (by norm_num) (by norm_num)

/-- C8: the `online` getter of `unit.py` reports `False` whenever the
owning network websocket state is anything other than `running` — even
when the stored device-level flag is `True` — and returns the stored flag
exactly when the websocket state is `running`. -/
theorem C8_online_requires_running (u : UnitPy.Unit) (s : String)
    (hs : s ≠ STATE_RUNNING) :
    UnitPy.online_getter s u = false ∧
    UnitPy.online_getter STATE_RUNNING u = u.online := by
  constructor
  · rw [UnitPy.online_getter, if_pos hs]
  · rw [UnitPy.online_getter]
    simp

/-- C8 witness: a unit whose stored flag is `True` reports `False` while
its network connection is `disconnected`. -/
theorem C8_online_requires_running_witness :
    UnitPy.online_getter STATE_DISCONNECTED exampleCctUnit = false ∧
    UnitPy.online_getter STATE_RUNNING exampleCctUnit =
      exampleCctUnit.online :=
  C8_online_requires_running exampleCctUnit STATE_DISCONNECTED (by decide)

/-! ## `websocket.py` — the `WSClient` realtime connection

The state property setter emits a connection-state signal on EVERY
assignment; data frames store the decoded payload and emit a data signal.
One invocation of `ws_loop` plus the surrounding `except` clauses of
`running()` is modelled by `running_iteration`: the inbound frames that
were iterated are given as a list, and whether/where the transport raised
is given by the `LoopRun` constructor. -/

namespace WSClient

/-- Inbound websocket frame kinds distinguished by `ws_loop`
(`aiohttp.WSMsgType.TEXT / BINARY / CLOSED / ERROR`); the payload is kept
as the decoded JSON text. -/
inductive WSFrame where
  | text (data : String)
  | binary (data : String)
  | closed
  | error
  deriving Repr, DecidableEq

/-- Signal delivered to the owner callback (`session_handler`); for a
connection-state signal the state value the owner reads back is recorded
alongside. -/
inductive Signal where
  | connectionState (state : String)
  | dataAvailable (data : String)
  deriving Repr, DecidableEq

/-- Observable state of one `WSClient`: the `state` string, the last
decoded payload, and the log of signals delivered to the owner. -/
structure WS where
  state : String
  data : Option String
  signals : List Signal
  deriving Repr, DecidableEq

/-- Embedding of the `WSClient.state` property setter: assigns and then
invokes the owner callback with `SIGNAL_CONNECTION_STATE`. -/
def set_state (ws : WS) (v : String) : WS :=
  { ws with state := v, signals := ws.signals ++ [.connectionState v] }

/-- Data-frame handling inside `ws_loop`: store the payload, signal
`SIGNAL_DATA`. -/
def emit_data (ws : WS) (d : String) : WS :=
  { ws with data := some d, signals := ws.signals ++ [.dataAvailable d] }

/-- Embedding of the `async for msg in self.web_sock` body of
`WSClient.ws_loop`: a stop flag set by `stop()` breaks at the top of the
next cycle, text/binary frames are dispatched, a CLOSED or ERROR frame
breaks, and exhausting the iterator ends the loop.  None of the exits
performs a state transition. -/
def ws_loop_iter : WS → List WSFrame → WS
  | ws, [] => ws
  | ws, f :: rest =>
    if ws.state = STATE_STOPPED then ws
    else
      match f with
      | .text d => ws_loop_iter (emit_data ws d) rest
      | .binary d => ws_loop_iter (emit_data ws d) rest
      | .closed => ws
      | .error => ws

/-- Embedding of `WSClient.ws_loop` for a run in which `ws_connect`
succeeded: transition to `running` (emitting the signal), send the open
handshake, then iterate inbound frames. -/
def ws_loop (ws : WS) (frames : List WSFrame) : WS :=
  ws_loop_iter (set_state ws STATE_RUNNING) frames

/-- Exception kinds distinguished by the `except` clauses of
`WSClient.running`; the first four are caught and converted, `unexpected`
is the catch-all that is additionally re-raised. -/
inductive WsExc where
  | connectionReset
  | connectionError
  | clientConnector
  | serverHandshake
  | unexpected
  deriving Repr, DecidableEq

/-- How one `await self.ws_loop()` call inside `running()` ended:
normally (close/error frame or iterator exhaustion, after the listed
frames), with an exception raised after the listed frames were handled,
or with `ws_connect` itself raising before any state change. -/
inductive LoopRun where
  | normal (frames : List WSFrame)
  | excDuring (frames : List WSFrame) (e : WsExc)
  | connectFail (e : WsExc)
  deriving Repr, DecidableEq

/-- Embedding of one iteration of the `while True` body of
`WSClient.running`: the `try` around `ws_loop` and its `except` clauses.
The second component is the exception that propagates out of the task,
if any. -/
def running_iteration (ws : WS) (r : LoopRun) : WS × Option WsExc :=
  match r with
  | .normal frames =>
      -- ws_loop returned: fall through to `await asyncio.sleep(...)`
      -- with no state transition of any kind.
      (ws_loop ws frames, none)
  | .excDuring frames e =>
      let ws1 := ws_loop ws frames
      if ws1.state = STATE_STOPPED then (ws1, none)
      else (set_state ws1 STATE_DISCONNECTED,
            if e = .unexpected then some .unexpected else none)
  | .connectFail e =>
      if ws.state = STATE_STOPPED then (ws, none)
      else (set_state ws STATE_DISCONNECTED,
            if e = .unexpected then some .unexpected else none)

end WSClient

/-- Example `WSClient` state right after `start()` on a fresh client:
`disconnected` at construction, then `starting` assigned (with its
signal) before the `running()` task is scheduled. -/
def wsAfterStart : WSClient.WS :=
  WSClient.set_state ⟨STATE_DISCONNECTED, none, []⟩ STATE_STARTING

/-- C4 counterexample: a remote close frame ends `ws_loop` by `break`,
and `running()` falls through to the sleep without ANY state transition:
the connection state remains `running` (not `stopped`), never becomes
`disconnected`, and no disconnected connection-state signal is delivered
to the owner.  The claim requires a transition to `disconnected` with a
signal on every such exit. -/
theorem C4_counterexample :
    (WSClient.running_iteration wsAfterStart
        (.normal [.closed])).1.state = STATE_RUNNING ∧
    (WSClient.running_iteration wsAfterStart
        (.normal [.closed])).1.state ≠ STATE_DISCONNECTED ∧
    WSClient.Signal.connectionState STATE_DISCONNECTED ∉
      (WSClient.running_iteration wsAfterStart
        (.normal [.closed])).1.signals ∧
    (WSClient.running_iteration wsAfterStart (.normal [.closed])).2 =
      none := by
  refine ⟨rfl, by decide, by decide, rfl⟩

/-- C4 amended: only an exit of the receive task through one of the
caught transport/protocol exceptions transitions to `disconnected` (and
then exactly one disconnected connection-state signal is emitted to the
owner), provided the state is not `stopped` at that moment; an exit of
the frame loop through a remote close frame, an error frame, or the end
of the inbound iteration performs no transition at all — `running()`
sleeps and reopens the socket. -/
theorem C4_amended_disconnect_only_on_exception (ws : WSClient.WS)
    (frames frames2 : List WSClient.WSFrame) (e : WSClient.WsExc)
    (h : (WSClient.ws_loop ws frames).state ≠ STATE_STOPPED) :
    (WSClient.running_iteration ws (.excDuring frames e)).1.state =
      STATE_DISCONNECTED ∧
    (WSClient.running_iteration ws (.excDuring frames e)).1.signals =
      (WSClient.ws_loop ws frames).signals ++
        [.connectionState STATE_DISCONNECTED] ∧
    (WSClient.running_iteration ws (.normal frames2)).1 =
      WSClient.ws_loop ws frames2 := by
  refine ⟨?_, ?_, rfl⟩
  · rw [WSClient.running_iteration]
    simp only [if_neg h]
    rfl
  · rw [WSClient.running_iteration]
    simp only [if_neg h]
    rfl

/-- C4 witness: a connection-reset after one data frame disconnects with
a signal; a close-frame run is returned unchanged by the handler. -/
theorem C4_amended_disconnect_only_on_exception_witness :
    (WSClient.running_iteration wsAfterStart
        (.excDuring [.text "x"] .connectionReset)).1.state =
      STATE_DISCONNECTED ∧
    (WSClient.running_iteration wsAfterStart
        (.excDuring [.text "x"] .connectionReset)).1.signals =
      (WSClient.ws_loop wsAfterStart [.text "x"]).signals ++
        [.connectionState STATE_DISCONNECTED] ∧
    (WSClient.running_iteration wsAfterStart (.normal [.closed])).1 =
      WSClient.ws_loop wsAfterStart [.closed] :=
  C4_amended_disconnect_only_on_exception wsAfterStart [.text "x"]
    [.closed] .connectionReset (by decide)

/-! ## `units.py` — the `Units` collection and its embedded `Unit` revision

`units.py` defines its own, older revision of the `Unit` class at module
level, and the `Units` collection instantiates THAT class (the name
`Unit` resolves inside the same module).  Two quirks of that revision
matter below: its `online` getter does not consult the websocket state,
and the class body defines the `value` property twice so the second,
validation-free definition wins (`self._value = value`, no on/off state
change, no exception). -/

namespace UnitsPy

/-- State of the `Unit` class defined at the bottom of `units.py`. -/
structure Unit where
  name : String
  address : Option String
  unit_id : Int
  network_id : String
  wire_id : Int
  value : ℚ
  state : String
  fixture_model : Option String := none
  fixture : Option ℚ := none
  oem : Option String := none
  online : Bool
  enabled : Bool
  controls : List (String × Control) := []
  deriving Repr, DecidableEq

/-- The loop shared by the `units.py` `Unit` constructor and its
`controls` setter: `for control in controls:
self._controls[control["type"]] = control`, raising `KeyError` when an
entry has no `type` key. -/
def controls_setter (acc : List (String × Control)) :
    List Control → Except PyErr (List (String × Control))
  | [] => .ok acc
  | c :: rest =>
      match c.ctype with
      | none => .error .keyError
      | some t => controls_setter (insertA acc t c) rest

/-- Embedding of the `units.py` `Unit.__init__` call made by
`process_unit_event` for a newly discovered unit: dimmer value 0, state
off, metadata unset, controls built from the frame control list. -/
def mkUnit (name : String) (address : Option String) (unit_id : Int)
    (network_id : String) (wire_id : Int) (controls : List Control)
    (online : Bool) : Except PyErr Unit := do
  let cs ← controls_setter [] controls
  .ok { name := name, address := address, unit_id := unit_id,
        network_id := network_id, wire_id := wire_id, value := 0,
        state := UNIT_STATE_OFF, online := online, enabled := true,
        controls := cs }

end UnitsPy

/-- Keys of the per-network unit registry: `f"{network_id}-{unit_key}"`. -/
def mkKey (network_id unit_key : String) : String :=
  network_id ++ "-" ++ unit_key

theorem mkKey_inj (net a b : String) (h : mkKey net a = mkKey net b) :
    a = b := by
  rw [mkKey, mkKey] at h
  have h2 := congrArg String.data h
  simp only [String.data_append, List.append_assoc] at h2
  exact String.ext (by simpa using h2)

/-- Snapshot entry for one unit of a full-state response.  The fields the
code reads (`online`, `name`, `dimLevel`) are present — the claims
quantify over well-formed snapshots — and the `controls` section of the
snapshot is carried along for comparison although
`process_network_state` never reads it. -/
structure SnapUnit where
  online : Bool
  name : String
  dimLevel : ℚ
  controls : List Control
  deriving Repr, DecidableEq

/-- Argument of `process_network_state`.  A `dict` is a mapping whose
`units` key either is present (`some entries`) or missing (`none`);
`scalar` stands for a non-container value such as `None` or a number, on
which the Python expression `"units" not in data` raises `TypeError`. -/
inductive SnapData where
  | dict (units : Option (List (String × SnapUnit)))
  | scalar
  deriving Repr, DecidableEq

/-- One iteration of the `for unit_key in data["units"]` loop of
`Units.process_network_state`: a missing registry key raises `KeyError`;
otherwise the online flag and name are overwritten and — only when the
snapshot reports the device online — the dimmer value is overwritten with
the snapshot `dimLevel` (through the validation-free `value` setter of
the `units.py` `Unit` revision).  Controls are never touched. -/
def process_network_state_step (net : String)
    (units : List (String × UnitsPy.Unit)) (entry : String × SnapUnit) :
    Except PyErr (List (String × UnitsPy.Unit)) :=
  let key := mkKey net entry.1
  match lookupA units key with
  | none => .error .keyError
  | some u =>
      let u1 := { u with online := entry.2.online }
      let u2 := { u1 with name := entry.2.name }
      let u3 := if entry.2.online then { u2 with value := entry.2.dimLevel }
                else u2
      .ok (insertA units key u3)

/-- Embedding of `Units.process_network_state`: the `try`-guarded
membership test re-raises `TypeError` on a non-container input, a
mapping without a `units` key is a silent no-op, and otherwise every
snapshot unit is applied in order. -/
def process_network_state (net : String)
    (units : List (String × UnitsPy.Unit)) (data : SnapData) :
    Except PyErr (List (String × UnitsPy.Unit)) :=
  match data with
  | .scalar => .error .typeError
  | .dict none => .ok units
  | .dict (some entries) =>
      entries.foldlM (process_network_state_step net) units

/-- Net effect of one snapshot entry on a registered unit: online flag
and name overwritten, the dimmer value overwritten only when the
snapshot reports the device online.  Controls, state, metadata and
identity are untouched. -/
def pnsUpdate (u : UnitsPy.Unit) (s : SnapUnit) : UnitsPy.Unit :=
  { u with online := s.online, name := s.name,
           value := if s.online then s.dimLevel else u.value }

theorem process_network_state_step_ok (net : String)
    (units u' : List (String × UnitsPy.Unit)) (e : String × SnapUnit)
    (hok : process_network_state_step net units e = .ok u') :
    ∃ u, lookupA units (mkKey net e.1) = some u ∧
      u' = insertA units (mkKey net e.1) (pnsUpdate u e.2) := by
  rw [process_network_state_step] at hok
  cases hlk : lookupA units (mkKey net e.1) with
  | none => rw [hlk] at hok; cases hok
  | some u =>
      rw [hlk] at hok
      refine ⟨u, rfl, ?_⟩
      by_cases ho : e.2.online
      · simp only [ho, if_true] at hok
        cases hok
        simp [pnsUpdate, ho]
      · simp only [ho, if_false] at hok
        cases hok
        simp [pnsUpdate, ho]

theorem pns_fold_preserve (net : String) (entries : List (String × SnapUnit))
    (units units' : List (String × UnitsPy.Unit)) (k : String)
    (hok : entries.foldlM (process_network_state_step net) units = .ok units')
    (hk : ∀ p ∈ entries, mkKey net p.1 ≠ k) :
    lookupA units' k = lookupA units k := by
  induction entries generalizing units with
  | nil =>
      simp only [List.foldlM_nil] at hok
      cases hok
      rfl
  | cons e rest ih =>
      rw [List.foldlM_cons] at hok
      cases hstep : process_network_state_step net units e with
      | error err => rw [hstep] at hok; cases hok
      | ok u₁ =>
          rw [hstep] at hok
          have hok' : rest.foldlM (process_network_state_step net) u₁ =
              .ok units' := hok
          obtain ⟨u, _, hu1⟩ :=
            process_network_state_step_ok net units u₁ e hstep
          have hrest : ∀ p ∈ rest, mkKey net p.1 ≠ k := fun p hp =>
            hk p (List.mem_cons_of_mem e hp)
          rw [ih u₁ hok' hrest, hu1,
            lookupA_insertA_ne _ _ _ _ (hk e (List.mem_cons_self e rest))]

/-- C6 counterexample: `process_network_state` never overwrites a unit
controls mapping, not even for a unit the snapshot reports online.  A
registered unit holding a Dimmer control with value 0 keeps exactly that
control after applying a snapshot whose entry for the unit is online with
dimLevel 1 and a Dimmer control with value 1: re-reading the controls
yields the old mapping, not the snapshot controls section. -/
theorem C6_counterexample :
    process_network_state "n"
        [("n-1", { name := "Old", address := some "aa", unit_id := 1,
                   network_id := "n", wire_id := 3, value := 0,
                   state := UNIT_STATE_OFF, online := false,
                   enabled := true,
                   controls := [("Dimmer",
                     { ctype := some "Dimmer", value := some 0 })] })]
        (.dict (some [("1", { online := true, name := "New",
                              dimLevel := 1,
                              controls := [{ ctype := some "Dimmer",
                                             value := some 1 }] })])) =
      .ok [("n-1", { name := "New", address := some "aa", unit_id := 1,
                     network_id := "n", wire_id := 3, value := 1,
                     state := UNIT_STATE_OFF, online := true,
                     enabled := true,
                     controls := [("Dimmer",
                       { ctype := some "Dimmer", value := some 0 })] })] ∧
    [(("Dimmer" : String),
        ({ ctype := some "Dimmer", value := some 0 } : Control))] ≠
      [("Dimmer", { ctype := some "Dimmer", value := some 1 })] := by
  constructor
  · rfl
  · decide

/-- C6 amended: after a successful `process_network_state` on a
well-formed snapshot with distinct unit keys, every unit present in both
the snapshot and the registry carries exactly the snapshot online flag
and name, its dimmer value is overwritten with the snapshot `dimLevel`
precisely when the snapshot reports it online, and its controls mapping
(and all other fields) are left as they were; every registry key not
named by the snapshot is completely unchanged. -/
theorem C6_amended_snapshot_updates (net : String)
    (entries : List (String × SnapUnit))
    (units units' : List (String × UnitsPy.Unit)) (uk : String)
    (ud : SnapUnit) (u : UnitsPy.Unit)
    (hok : process_network_state net units (.dict (some entries)) =
      .ok units')
    (hnd : (entries.map (fun p => mkKey net p.1)).Nodup)
    (hmem : (uk, ud) ∈ entries)
    (hu : lookupA units (mkKey net uk) = some u) :
    lookupA units' (mkKey net uk) = some (pnsUpdate u ud) ∧
    (pnsUpdate u ud).controls = u.controls ∧
    (pnsUpdate u ud).online = ud.online ∧
    (pnsUpdate u ud).name = ud.name ∧
    (pnsUpdate u ud).value = (if ud.online then ud.dimLevel else u.value) ∧
    (∀ k, (∀ p ∈ entries, mkKey net p.1 ≠ k) →
      lookupA units' k = lookupA units k) := by
  rw [process_network_state] at hok
  refine ⟨?_, rfl, rfl, rfl, rfl,
    fun k hk => pns_fold_preserve net entries units units' k hok hk⟩
  induction entries generalizing units with
  | nil => cases hmem
  | cons e rest ih =>
      rw [List.foldlM_cons] at hok
      cases hstep : process_network_state_step net units e with
      | error err => rw [hstep] at hok; cases hok
      | ok u₁ =>
          rw [hstep] at hok
          have hok' : rest.foldlM (process_network_state_step net) u₁ =
              .ok units' := hok
          simp only [List.map_cons, List.nodup_cons] at hnd
          obtain ⟨u₀, hu₀, hu1⟩ :=
            process_network_state_step_ok net units u₁ e hstep
          rcases List.mem_cons.mp hmem with he | hrest
      -- the entry is the head of the snapshot list
          · rw [← he] at hu₀ hu1
            have hues : u₀ = u := Option.some.inj (hu₀.symm.trans hu)
            subst hues
            have hnotin : ∀ p ∈ rest, mkKey net p.1 ≠ mkKey net uk := by
              intro p hp hcontra
              apply hnd.1
              rw [← he]
              exact hcontra ▸
                List.mem_map_of_mem (fun p => mkKey net p.1) hp
            rw [pns_fold_preserve net rest u₁ units' (mkKey net uk) hok'
              hnotin, hu1]
            exact lookupA_insertA_self _ _ _
      -- the entry sits in the tail
          · have hne : mkKey net e.1 ≠ mkKey net uk := by
              intro hcontra
              exact hnd.1 (hcontra ▸
                List.mem_map_of_mem (fun p => mkKey net p.1) hrest)
            have hu' : lookupA u₁ (mkKey net uk) = some u := by
              rw [hu1, lookupA_insertA_ne _ _ _ _ hne, hu]
            exact ih u₁ hok' hnd.2 hrest hu'

/-- Registered unit used by the C6 witness. -/
def c6Unit : UnitsPy.Unit :=
  { name := "Old", address := some "aa", unit_id := 1, network_id := "n",
    wire_id := 3, value := 0, state := UNIT_STATE_OFF, online := false,
    enabled := true,
    controls := [("Dimmer", { ctype := some "Dimmer", value := some 0 })] }

/-- Snapshot entry used by the C6 witness. -/
def c6Snap : SnapUnit :=
  { online := true, name := "New", dimLevel := 1,
    controls := [{ ctype := some "Dimmer", value := some 1 }] }

/-- C6 witness: the amended statement at a one-unit registry and a
one-unit snapshot. -/
theorem C6_amended_snapshot_updates_witness :
    lookupA [("n-1", pnsUpdate c6Unit c6Snap)] (mkKey "n" "1") =
      some (pnsUpdate c6Unit c6Snap) ∧
    (pnsUpdate c6Unit c6Snap).controls = c6Unit.controls ∧
    (pnsUpdate c6Unit c6Snap).online = c6Snap.online ∧
    (pnsUpdate c6Unit c6Snap).name = c6Snap.name ∧
    (pnsUpdate c6Unit c6Snap).value =
      (if c6Snap.online then c6Snap.dimLevel else c6Unit.value) ∧
    (∀ k, (∀ p ∈ [(("1" : String), c6Snap)], mkKey "n" p.1 ≠ k) →
      lookupA [("n-1", pnsUpdate c6Unit c6Snap)] k =
        lookupA [("n-1", c6Unit)] k) :=
  C6_amended_snapshot_updates "n" [("1", c6Snap)] [("n-1", c6Unit)]
    [("n-1", pnsUpdate c6Unit c6Snap)] "1" c6Snap c6Unit
    (by rfl) (by simp) (by simp) (by rfl)

/-- C7 counterexample: a non-container snapshot argument does NOT give a
silent no-op.  The membership test `"units" not in data` raises
`TypeError` on such a value, and `process_network_state` catches, logs
and RE-raises it (`raise err`), so the call does not return normally. -/
theorem C7_counterexample :
    process_network_state "n" [] .scalar = .error PyErr.typeError := rfl

/-- C7 amended: a mapping that lacks the top-level `units` section is a
silent no-op (the call returns normally with every unit unchanged), but
an input on which the membership test is unsupported — a non-container
such as `None` or a number — raises `TypeError`, which the surrounding
`try` block logs and deliberately re-raises instead of swallowing. -/
theorem C7_amended_missing_units_noop (net : String)
    (units : List (String × UnitsPy.Unit)) :
    process_network_state net units (.dict none) = .ok units ∧
    process_network_state net units .scalar = .error PyErr.typeError :=
  ⟨rfl, rfl⟩

/-! ## `Units.process_unit_event` (`units.py` lines 165-337)

A `unitChanged` frame is scanned control by control; each `Dimmer`
control entry triggers create-if-absent followed by value, metadata and
controls-merge updates on the registry entry, and records the unit in the
returned changes dict.  A frame without an `id` is discarded (Python
returns `None`); a non-`unitChanged` method leaves the registry untouched
and returns the empty changes dict. -/

/-- CPython `str.strip()`: drop leading and trailing whitespace (kept as
an explicit character-list computation so that concrete frames evaluate
inside the kernel). -/
def pyStrip (s : String) : String :=
  ⟨((s.data.dropWhile Char.isWhitespace).reverse.dropWhile
      Char.isWhitespace).reverse⟩

/-- Python `d["k"]`: the value, or `KeyError`. -/
def pyGet {α : Type} (o : Option α) : Except PyErr α :=
  match o with
  | some v => pure v
  | none => throw PyErr.keyError

/-- Sub-object under the `details` key of a push frame (field names carry
a `d` prefix to avoid clashing with the top-level fields). -/
structure MsgDetails where
  dname : Option String := none
  daddress : Option String := none
  dfixture : Option ℚ := none
  dfixture_model : Option String := none
  doem : Option String := none
  dcontrols : Option (List Control) := none
  deriving Repr, DecidableEq

/-- A realtime push frame as read by `process_unit_event`; absent dict
keys are `none`. -/
structure UnitEventMsg where
  id : Option Int := none
  method : Option String := none
  online : Option Bool := none
  controls : Option (List Control) := none
  details : Option MsgDetails := none
  name : Option String := none
  address : Option String := none
  fixture : Option ℚ := none
  fixture_model : Option String := none
  oem : Option String := none
  deriving Repr, DecidableEq

namespace UnitEventMsg

/-- Name resolution of the frame: `details["name"].strip()` when
present, else the top-level `name` stripped, else the empty string. -/
def resolvedName (msg : UnitEventMsg) : String :=
  match msg.details.bind MsgDetails.dname with
  | some n => pyStrip n
  | none =>
      match msg.name with
      | some n => pyStrip n
      | none => ""

/-- Address resolution: `details["address"]`, else top level, else
`None`. -/
def resolvedAddress (msg : UnitEventMsg) : Option String :=
  msg.details.bind MsgDetails.daddress <|> msg.address

/-- Fixture id resolution: `details["fixture"]`, else top level. -/
def resolvedFixture (msg : UnitEventMsg) : Option ℚ :=
  msg.details.bind MsgDetails.dfixture <|> msg.fixture

/-- Fixture model resolution: `details["fixture_model"]`, else top
level. -/
def resolvedFixtureModel (msg : UnitEventMsg) : Option String :=
  msg.details.bind MsgDetails.dfixture_model <|> msg.fixture_model

/-- OEM resolution: `details["OEM"]`, else top level. -/
def resolvedOem (msg : UnitEventMsg) : Option String :=
  msg.details.bind MsgDetails.doem <|> msg.oem

/-- Richer control list used by the merge step: `details["controls"]`
when present, else the frame control list. -/
def resolvedControls (msg : UnitEventMsg) : Option (List Control) :=
  msg.details.bind MsgDetails.dcontrols <|> msg.controls

end UnitEventMsg

/-- Updates lines 307-335 of `units.py` apply to the (now existing) unit
for one `Dimmer` control entry: the dimmer value from the control entry,
then fixture / online / fixture model / OEM when the frame carries them,
then a merge of the richer control list into the stored controls through
the `controls` setter. -/
def applyDimmer (msg : UnitEventMsg) (c : Control) (u : UnitsPy.Unit) :
    Except PyErr UnitsPy.Unit := do
  let v ← pyGet c.value
  let cs ← match msg.resolvedControls with
           | some L => UnitsPy.controls_setter u.controls L
           | none => pure u.controls
  .ok { u with
        value := v,
        fixture := msg.resolvedFixture <|> u.fixture,
        online := msg.online.getD u.online,
        fixture_model := msg.resolvedFixtureModel <|> u.fixture_model,
        oem := msg.resolvedOem <|> u.oem,
        controls := cs }

/-- One iteration of the `for control in controls` loop of
`process_unit_event`: non-Dimmer entries are skipped; a Dimmer entry
first evaluates the debug f-string reading `control["value"]`, then
creates the unit when the key is unknown (discovery), then applies the
updates. -/
def process_unit_control (net : String) (wire : Int) (msg : UnitEventMsg)
    (key : String) (i : Int) (st : List (String × UnitsPy.Unit))
    (c : Control) : Except PyErr (List (String × UnitsPy.Unit)) :=
  if c.ctype = some "Dimmer" then do
    let _ ← pyGet c.value
    let st1 ←
      if memA st key then pure st
      else do
        let u ← UnitsPy.mkUnit msg.resolvedName msg.resolvedAddress i net
          wire (msg.controls.getD []) (msg.online.getD false)
        pure (insertA st key u)
    match lookupA st1 key with
    | some u => do
        let u2 ← applyDimmer msg c u
        .ok (insertA st1 key u2)
    | none => throw PyErr.keyError
  else
    .ok st

/-- The whole control-list scan of a `unitChanged` frame. -/
def process_unit_controls (net : String) (wire : Int) (msg : UnitEventMsg)
    (key : String) (i : Int) :
    List (String × UnitsPy.Unit) → List Control →
    Except PyErr (List (String × UnitsPy.Unit))
  | st, [] => .ok st
  | st, c :: rest => do
      let st1 ← process_unit_control net wire msg key i st c
      process_unit_controls net wire msg key i st1 rest

/-- Embedding of `Units.process_unit_event`.  The second component of a
successful result is the changes dict represented by its key list:
`none` models the Python `return None` taken when the frame has no id;
otherwise the registry key of the frame unit is listed exactly when a
`Dimmer` control entry was processed (the changes values are the live
unit objects, i.e. the entries of the returned registry under those
keys). -/
def process_unit_event (net : String) (wire : Int)
    (st : List (String × UnitsPy.Unit)) (msg : UnitEventMsg) :
    Except PyErr ((List (String × UnitsPy.Unit)) × Option (List String)) :=
  match msg.id with
  | none => .ok (st, none)
  | some i =>
      let key := mkKey net (toString i)
      if msg.method = some "unitChanged" then do
        let L ← pyGet msg.controls
        let st1 ← process_unit_controls net wire msg key i st L
        .ok (st1, some (if L.any (fun c => c.ctype = some "Dimmer")
                        then [key] else []))
      else
        .ok (st, some [])

/-- Key under which a control entry is stored: its `type` value. -/
def typedKey (c : Control) : String := c.ctype.getD ""

/-- Every entry of the control list carries a `type` key (the condition
under which the controls setter loop cannot raise). -/
def allTyped (L : List Control) : Bool := L.all (fun c => c.ctype.isSome)

theorem controls_setter_eq_of_allTyped (L : List Control)
    (acc : List (String × Control)) (h : allTyped L = true) :
    UnitsPy.controls_setter acc L =
      .ok (insFoldA acc (L.map (fun c => (typedKey c, c)))) := by
  induction L generalizing acc with
  | nil => rfl
  | cons c rest ih =>
      rw [allTyped, List.all_cons, Bool.and_eq_true] at h
      cases hcc : c.ctype with
      | none => rw [hcc] at h; exact absurd h.1 (by simp)
      | some t =>
          have : allTyped rest = true := h.2
          simp only [UnitsPy.controls_setter, hcc, List.map_cons, typedKey,
            Option.getD_some, insFoldA_cons]
          exact ih _ this

theorem controls_setter_ok_allTyped (L : List Control)
    (acc m : List (String × Control))
    (h : UnitsPy.controls_setter acc L = .ok m) : allTyped L = true := by
  induction L generalizing acc with
  | nil => rfl
  | cons c rest ih =>
      cases hcc : c.ctype with
      | none => rw [UnitsPy.controls_setter, hcc] at h; cases h
      | some t =>
          rw [UnitsPy.controls_setter, hcc] at h
          rw [allTyped, List.all_cons, Bool.and_eq_true]
          exact ⟨by simp [hcc], ih _ h⟩

theorem controls_setter_idem (L : List Control)
    (acc m : List (String × Control))
    (h : UnitsPy.controls_setter acc L = .ok m) :
    UnitsPy.controls_setter m L = .ok m := by
  have ht := controls_setter_ok_allTyped L acc m h
  rw [controls_setter_eq_of_allTyped L acc ht] at h
  rw [controls_setter_eq_of_allTyped L m ht]
  cases h
  rw [insFoldA_idem]

theorem orElse_absorb {α : Type} (a b : Option α) :
    (a <|> (a <|> b)) = (a <|> b) := by
  cases a <;> rfl

theorem getD_absorb {α : Type} (a : Option α) (x : α) :
    a.getD (a.getD x) = a.getD x := by
  cases a <;> rfl

theorem applyDimmer_ok_elim (msg : UnitEventMsg) (c : Control)
    (u u₁ : UnitsPy.Unit) (h : applyDimmer msg c u = .ok u₁) :
    ∃ v cs, c.value = some v ∧
      (match msg.resolvedControls with
       | some L => UnitsPy.controls_setter u.controls L
       | none => pure u.controls) = Except.ok cs ∧
      u₁ = { u with
        value := v,
        fixture := msg.resolvedFixture <|> u.fixture,
        online := msg.online.getD u.online,
        fixture_model := msg.resolvedFixtureModel <|> u.fixture_model,
        oem := msg.resolvedOem <|> u.oem,
        controls := cs } := by
  rw [applyDimmer] at h
  cases hv : c.value with
  | none =>
      rw [show pyGet c.value = throw PyErr.keyError from by rw [hv]; rfl]
        at h
      cases h
  | some v =>
      rw [show pyGet c.value = pure v from by rw [hv]; rfl] at h
      cases hrc : msg.resolvedControls with
      | none =>
          rw [hrc] at h
          simp only [bind, Except.bind, pure, Except.pure] at h
          cases h
          exact ⟨v, u.controls, rfl, rfl, rfl⟩
      | some L =>
          rw [hrc] at h
          cases hcs : UnitsPy.controls_setter u.controls L with
          | error e =>
              simp only [hcs, bind, Except.bind, pure, Except.pure] at h
              cases h
          | ok cs =>
              simp only [hcs, bind, Except.bind, pure, Except.pure] at h
              cases h
              exact ⟨v, cs, rfl, by simp only [hcs], rfl⟩

theorem applyDimmer_ok_intro (msg : UnitEventMsg) (c : Control)
    (u : UnitsPy.Unit) (v : ℚ) (cs : List (String × Control))
    (hv : c.value = some v)
    (hcs : (match msg.resolvedControls with
            | some L => UnitsPy.controls_setter u.controls L
            | none => pure u.controls) = Except.ok cs) :
    applyDimmer msg c u = .ok { u with
      value := v,
      fixture := msg.resolvedFixture <|> u.fixture,
      online := msg.online.getD u.online,
      fixture_model := msg.resolvedFixtureModel <|> u.fixture_model,
      oem := msg.resolvedOem <|> u.oem,
      controls := cs } := by
  rw [applyDimmer, show pyGet c.value = pure v from by rw [hv]; rfl]
  cases hrc : msg.resolvedControls with
  | none =>
      rw [hrc] at hcs
      simp only [pure, Except.pure, Except.ok.injEq] at hcs
      simp [bind, Except.bind, pure, Except.pure, hcs]
  | some L =>
      rw [hrc] at hcs
      simp only at hcs
      simp [bind, Except.bind, pure, Except.pure, hcs]

theorem applyDimmer_absorb (msg : UnitEventMsg) (c₁ c₂ : Control)
    (u u₁ : UnitsPy.Unit) (h : applyDimmer msg c₁ u = .ok u₁) :
    applyDimmer msg c₂ u₁ = applyDimmer msg c₂ u := by
  obtain ⟨v₁, cs, hv₁, hcs, hu₁⟩ := applyDimmer_ok_elim msg c₁ u u₁ h
  have hctrl : u₁.controls = cs := by rw [hu₁]
  have hcs1 : (match msg.resolvedControls with
      | some L => UnitsPy.controls_setter u₁.controls L
      | none => pure u₁.controls) = Except.ok cs := by
    cases hrc : msg.resolvedControls with
    | none => simp only [hctrl]; rfl
    | some L =>
        rw [hctrl]
        rw [hrc] at hcs
        exact controls_setter_idem L u.controls cs hcs
  cases hv₂ : c₂.value with
  | none =>
      rw [applyDimmer, applyDimmer,
        show pyGet c₂.value = Except.error PyErr.keyError from by
          rw [hv₂]; rfl]
      rfl
  | some v₂ =>
      rw [applyDimmer_ok_intro msg c₂ u₁ v₂ cs hv₂ hcs1,
          applyDimmer_ok_intro msg c₂ u v₂ cs hv₂ hcs, hu₁]
      simp [orElse_absorb, getD_absorb]

theorem bind_ok_elim {α β : Type} (x : Except PyErr α)
    (f : α → Except PyErr β) (b : β) (h : (x >>= f) = .ok b) :
    ∃ a, x = .ok a ∧ f a = .ok b := by
  cases x with
  | error e => simp [bind, Except.bind] at h
  | ok a => exact ⟨a, rfl, by simpa [bind, Except.bind] using h⟩

theorem pyGet_ok {α : Type} (o : Option α) (a : α) (h : pyGet o = .ok a) :
    o = some a := by
  cases o with
  | none => cases h
  | some b =>
      simp only [pyGet, pure, Except.pure, Except.ok.injEq] at h
      rw [h]

/-- Effect of the Dimmer-control scan on the frame unit alone; the
registry-level loop is this fold re-inserted under the frame key. -/
def applyControls (msg : UnitEventMsg) :
    UnitsPy.Unit → List Control → Except PyErr UnitsPy.Unit
  | u, [] => .ok u
  | u, c :: rest =>
      if c.ctype = some "Dimmer" then do
        let u1 ← applyDimmer msg c u
        applyControls msg u1 rest
      else applyControls msg u rest

theorem applyControls_stable (msg : UnitEventMsg) (L : List Control)
    (v u' : UnitsPy.Unit) (h : applyControls msg v L = .ok u')
    (c₂ : Control) : applyDimmer msg c₂ u' = applyDimmer msg c₂ v := by
  induction L generalizing v with
  | nil =>
      simp only [applyControls, Except.ok.injEq] at h
      rw [h]
  | cons c rest ih =>
      rw [applyControls] at h
      by_cases hc : c.ctype = some "Dimmer"
      · rw [if_pos hc] at h
        obtain ⟨v₁, happ, hrest⟩ := bind_ok_elim _ _ _ h
        rw [ih v₁ hrest, applyDimmer_absorb msg c c₂ v v₁ happ]
      · rw [if_neg hc] at h
        exact ih v h

theorem applyControls_idem (msg : UnitEventMsg) (L : List Control)
    (u u' : UnitsPy.Unit) (h : applyControls msg u L = .ok u') :
    applyControls msg u' L = .ok u' := by
  induction L generalizing u with
  | nil =>
      rfl
  | cons c rest ih =>
      rw [applyControls] at h ⊢
      by_cases hc : c.ctype = some "Dimmer"
      · rw [if_pos hc] at h ⊢
        obtain ⟨u₁, happ, hrest⟩ := bind_ok_elim _ _ _ h
        have h2 : applyDimmer msg c u' = .ok u₁ := by
          rw [applyControls_stable msg rest u₁ u' hrest c,
            applyDimmer_absorb msg c c u u₁ happ]
          exact happ
        rw [h2]
        simpa [bind, Except.bind] using hrest
      · rw [if_neg hc] at h ⊢
        exact ih u h

theorem puc_not_dimmer (net : String) (wire : Int) (msg : UnitEventMsg)
    (key : String) (i : Int) (st : List (String × UnitsPy.Unit))
    (c : Control) (hc : ¬(c.ctype = some "Dimmer")) :
    process_unit_control net wire msg key i st c = .ok st := by
  rw [process_unit_control, if_neg hc]

theorem puc_dimmer_mem (net : String) (wire : Int) (msg : UnitEventMsg)
    (key : String) (i : Int) (st : List (String × UnitsPy.Unit))
    (u : UnitsPy.Unit) (c : Control) (hc : c.ctype = some "Dimmer")
    (hu : lookupA st key = some u) :
    process_unit_control net wire msg key i st c =
      (applyDimmer msg c u).map (fun u2 => insertA st key u2) := by
  rw [process_unit_control, if_pos hc]
  cases hv : c.value with
  | none =>
      rw [show pyGet (none : Option ℚ) = Except.error PyErr.keyError from
        rfl]
      rw [applyDimmer]
      rw [show pyGet c.value = Except.error PyErr.keyError from by
        rw [hv]; rfl]
      rfl
  | some v =>
      rw [show pyGet (some v) = (pure v : Except PyErr ℚ) from rfl]
      have hmem : memA st key = true := memA_of_lookup _ _ _ hu
      simp only [bind, Except.bind, pure, Except.pure, hmem, if_true, hu]
      cases hda : applyDimmer msg c u <;>
        simp [hda, bind, Except.bind, Except.map]

theorem process_unit_controls_of_mem (net : String) (wire : Int)
    (msg : UnitEventMsg) (key : String) (i : Int)
    (st : List (String × UnitsPy.Unit)) (u : UnitsPy.Unit)
    (L : List Control) (hu : lookupA st key = some u) :
    process_unit_controls net wire msg key i st L =
      (applyControls msg u L).map (fun u2 => insertA st key u2) := by
  induction L generalizing st u with
  | nil =>
      simp only [process_unit_controls, applyControls, Except.map]
      rw [insertA_self_of_lookup st key u hu]
  | cons c rest ih =>
      by_cases hc : c.ctype = some "Dimmer"
      · rw [process_unit_controls,
          puc_dimmer_mem net wire msg key i st u c hc hu]
        cases happ : applyDimmer msg c u with
        | error e =>
            simp [Except.map, bind, Except.bind, applyControls, if_pos hc,
              happ]
        | ok u₂ =>
            have hlk : lookupA (insertA st key u₂) key = some u₂ :=
              lookupA_insertA_self _ _ _
            simp only [Except.map, bind, Except.bind]
            rw [ih (insertA st key u₂) u₂ hlk]
            cases hac : applyControls msg u₂ rest <;>
              simp [hac, Except.map, applyControls, if_pos hc, happ, bind,
                Except.bind, insertA_insertA_same]
      · rw [process_unit_controls,
          puc_not_dimmer net wire msg key i st c hc]
        simp only [bind, Except.bind]
        rw [ih st u hu]
        cases hac : applyControls msg u rest <;>
          simp [hac, Except.map, applyControls, if_neg hc, bind,
            Except.bind]

theorem map_ok_elim {α β : Type} (x : Except PyErr α) (g : α → β) (b : β)
    (h : Except.map g x = .ok b) : ∃ a, x = .ok a ∧ g a = b := by
  cases x with
  | error e => simp [Except.map] at h
  | ok a => exact ⟨a, rfl, by simpa [Except.map] using h⟩

theorem puc_idem_tail (net : String) (wire : Int) (msg : UnitEventMsg)
    (key : String) (i : Int) (st st' : List (String × UnitsPy.Unit))
    (c : Control) (rest : List Control) (hc : c.ctype = some "Dimmer")
    (u₀ u₂ : UnitsPy.Unit) (happ : applyDimmer msg c u₀ = .ok u₂)
    (hrest : process_unit_controls net wire msg key i
      (insertA st key u₂) rest = .ok st') :
    process_unit_controls net wire msg key i st' (c :: rest) =
      .ok st' := by
  have hchar := process_unit_controls_of_mem net wire msg key i
    (insertA st key u₂) u₂ rest (lookupA_insertA_self st key u₂)
  rw [hchar] at hrest
  obtain ⟨uf, hac, hst'⟩ := map_ok_elim _ _ _ hrest
  have hst'2 : st' = insertA st key uf := by
    rw [← hst', insertA_insertA_same]
  have hlk' : lookupA st' key = some uf := by
    rw [hst'2]
    exact lookupA_insertA_self _ _ _
  have hda' : applyDimmer msg c uf = .ok u₂ := by
    rw [applyControls_stable msg rest u₂ uf hac c,
      applyDimmer_absorb msg c c u₀ u₂ happ]
    exact happ
  rw [process_unit_controls,
    puc_dimmer_mem net wire msg key i st' uf c hc hlk', hda']
  simp only [Except.map, bind, Except.bind]
  have hins2 : insertA st' key u₂ = insertA st key u₂ := by
    rw [hst'2, insertA_insertA_same]
  rw [hins2, hchar, hac]
  simp only [Except.map]
  rw [insertA_insertA_same, ← hst'2]

theorem process_unit_controls_idem (net : String) (wire : Int)
    (msg : UnitEventMsg) (key : String) (i : Int)
    (st st' : List (String × UnitsPy.Unit)) (L : List Control)
    (h : process_unit_controls net wire msg key i st L = .ok st') :
    process_unit_controls net wire msg key i st' L = .ok st' := by
  induction L generalizing st with
  | nil => rfl
  | cons c rest ih =>
      rw [process_unit_controls] at h
      obtain ⟨st1, hstep, hrest⟩ := bind_ok_elim _ _ _ h
      by_cases hc : c.ctype = some "Dimmer"
      · rw [process_unit_control, if_pos hc] at hstep
        obtain ⟨v, hvget, h2⟩ := bind_ok_elim _ _ _ hstep
        cases hmem : memA st key with
        | true =>
            rw [if_pos hmem] at h2
            simp only [bind, Except.bind, pure, Except.pure] at h2
            obtain ⟨u, hu⟩ := Option.isSome_iff_exists.mp hmem
            rw [hu] at h2
            simp only at h2
            obtain ⟨u₂, happ, hins⟩ := bind_ok_elim _ _ _ h2
            cases hins
            exact puc_idem_tail net wire msg key i st st' c rest hc u u₂
              happ hrest
        | false =>
            rw [if_neg (by rw [hmem]; simp)] at h2
            simp only [bind, Except.bind, pure, Except.pure] at h2
            cases hmk : UnitsPy.mkUnit msg.resolvedName msg.resolvedAddress
                i net wire (msg.controls.getD [])
                (msg.online.getD false) with
            | error e => rw [hmk] at h2; cases h2
            | ok u₀ =>
                rw [hmk] at h2
                simp only [bind, Except.bind, pure, Except.pure,
                  lookupA_insertA_self] at h2
                obtain ⟨u₂, happ, hins⟩ := bind_ok_elim _ _ _ h2
                cases hins
                rw [insertA_insertA_same] at hrest
                exact puc_idem_tail net wire msg key i st st' c rest hc u₀
                  u₂ happ hrest
      · rw [puc_not_dimmer net wire msg key i st c hc] at hstep
        cases hstep
        rw [process_unit_controls,
          puc_not_dimmer net wire msg key i st' c hc]
        simp only [bind, Except.bind]
        exact ih st hrest

/-- C9: processing the same `unitChanged` push frame twice in succession
leaves every unit in the collection in exactly the final state produced
by processing it once, and returns the same change-set both times: no
duplicate unit is created for an id discovered by the first application
and no field is double-counted.  The change-set is the returned registry
restricted to the listed keys, so equal registries plus equal key lists
give equal change-sets. -/
theorem C9_process_unit_event_idempotent (net : String) (wire : Int)
    (st st' : List (String × UnitsPy.Unit)) (msg : UnitEventMsg)
    (ch : Option (List String))
    (h : process_unit_event net wire st msg = .ok (st', ch)) :
    process_unit_event net wire st' msg = .ok (st', ch) := by
  cases hid : msg.id with
  | none =>
      simp only [process_unit_event, hid] at h ⊢
      cases h
      rfl
  | some i =>
      simp only [process_unit_event, hid] at h ⊢
      by_cases hm : msg.method = some "unitChanged"
      · rw [if_pos hm] at h ⊢
        obtain ⟨L, hLget, h2⟩ := bind_ok_elim _ _ _ h
        have hL : msg.controls = some L := pyGet_ok _ _ hLget
        obtain ⟨st1, hfold, hres⟩ := bind_ok_elim _ _ _ h2
        cases hres
        rw [show pyGet msg.controls = (pure L : Except PyErr _) from by
          rw [hL]; rfl]
        simp only [bind, Except.bind, pure, Except.pure]
        rw [process_unit_controls_idem net wire msg
          (mkKey net (toString i)) i st _ L hfold]
      · rw [if_neg hm] at h ⊢
        cases h
        rfl

/-- Push frame used by the C9 witness: a `unitChanged` frame for a unit
id not yet in the registry, carrying one non-Dimmer and one Dimmer
control and a `details` section. -/
def c9msg : UnitEventMsg :=
  { id := some 2, method := some "unitChanged", online := some true,
    controls := some [{ ctype := some "Overheat" },
                      { ctype := some "Dimmer", value := some 1 }],
    details := some { dname := some "Foo", daddress := some "ffff",
                      dfixture := some 859,
                      dfixture_model := some "LD220WCM",
                      doem := some "Vadsbo" } }

/-- Unit state produced by the first application of `c9msg` to the empty
registry (lazy discovery). -/
def c9unit : UnitsPy.Unit :=
  { name := "Foo", address := some "ffff", unit_id := 2,
    network_id := "net1", wire_id := 3, value := 1,
    state := UNIT_STATE_OFF, fixture_model := some "LD220WCM",
    fixture := some 859, oem := some "Vadsbo", online := true,
    enabled := true,
    controls := [("Overheat", { ctype := some "Overheat" }),
                 ("Dimmer", { ctype := some "Dimmer", value := some 1 })] }

/-- C9 witness: re-applying the frame to the registry produced by its
first application returns the same registry and the same change-set. -/
theorem C9_process_unit_event_idempotent_witness :
    process_unit_event "net1" 3 [("net1-2", c9unit)] c9msg =
      .ok ([("net1-2", c9unit)], some ["net1-2"]) :=
  C9_process_unit_event_idempotent "net1" 3 [] [("net1-2", c9unit)] c9msg
    (some ["net1-2"]) (by rfl)
